import Mathlib

/-!
Shallow embedding of the Spark pod initializer control loop
(pkg/initializer/initializer.go) and proofs about its behaviour.

Pods, queue keys and the mutator registration record are modelled as plain
Lean structures; Go strings that are only split on a separator character are
modelled as lists of characters; in-place mutation through pointers is
modelled either as pure functions on pods or, where aliasing matters, as an
explicit heap of pod cells addressed by indices.
-/

namespace SparkOperator

/-- The name that appears in the list of pending initializers in a Pod spec
(constant initializerName in the source). -/
def initializerName : String := "pod-initializer.spark-operator.k8s.io"

/-- The name of the InitializerConfig object (constant initializerConfigName). -/
def initializerConfigName : String := "spark-pod-initializer-config"

/-- The label used to distinguish Spark pods from other pods (constant sparkRoleLabel). -/
def sparkRoleLabel : String := "spark-role"

/-- The value of the spark-role label assigned to Spark driver pods. -/
def sparkDriverRole : String := "driver"

/-- The value of the spark-role label assigned to Spark executor pods. -/
def sparkExecutorRole : String := "executor"

/-- metav1.OwnerReference, restricted to the fields relevant here. -/
structure OwnerReference where
  apiVersion : String
  kind : String
  name : String
  uid : String
deriving Repr, DecidableEq

/-- The zero value of the OwnerReference struct, as produced by the Go
declaration before Unmarshal fills it. -/
def zeroOwnerReference : OwnerReference :=
  { apiVersion := "", kind := "", name := "", uid := "" }

/-- metav1.Initializer: one entry of the pending-initializer list of a pod. -/
structure PodInitializer where
  name : String
deriving Repr, DecidableEq

/-- metav1.Initializers: the Pending list plus the Result field the code
never reads (kept so that updates that only touch Pending are visible as
such). -/
structure PodInitializers where
  pending : List PodInitializer
  result : Option String := none
deriving Repr, DecidableEq

/-- A volume mount of a container (name plus mount path). -/
structure VolumeMount where
  name : String
  mountPath : String
deriving Repr, DecidableEq

/-- A container: its name and the volume mounts the mutation steps add to. -/
structure Container where
  name : String
  volumeMounts : List VolumeMount := []
deriving Repr, DecidableEq

/-- A pod volume: its name and the config map or secret it references. -/
structure Volume where
  name : String
  source : String
deriving Repr, DecidableEq

/-- The slice of apiv1.Pod the initializer reads and writes.  Namespace and
name are lists of characters because the only operations on them are
concatenation with and splitting on the separator character of queue keys. -/
structure Pod where
  nameSpace : List Char
  name : List Char
  labels : List (String × String) := []
  annots : List (String × String) := []
  initializers : Option PodInitializers := none
  ownerReferences : List OwnerReference := []
  containers : List Container := []
  volumes : List Volume := []
deriving Repr, DecidableEq

/-- removeSelf removes the initializer from the list of pending initializers
of the given pod (function removeSelf in the source, translated clause by
clause: the loop building updated is a filter; the first guard returns the
pod unchanged when updated is non-empty and of unchanged length; otherwise
an empty updated clears the Initializers field and a non-empty one replaces
only the Pending list). -/
def removeSelf (pod : Pod) : Pod :=
  match pod.initializers with
  | none => pod
  | some inits =>
    let updated := inits.pending.filter (fun pending => pending.name != initializerName)
    if updated.length > 0 && updated.length == inits.pending.length then
      pod
    else if updated.length == 0 then
      { pod with initializers := none }
    else
      { pod with initializers := some { inits with pending := updated } }

/-- isInitializerPresent returns whether the pending-initializer list of the
given pod contains an instance of this initializer (nil list means absent). -/
def isInitializerPresent (pod : Pod) : Bool :=
  match pod.initializers with
  | none => false
  | some inits => inits.pending.any (fun pending => pending.name == initializerName)

/-- isSparkPod tells if a pod is a Spark pod: the spark-role label must be
present and equal to the driver or the executor role. -/
def isSparkPod (pod : Pod) : Bool :=
  match pod.labels.lookup sparkRoleLabel with
  | none => false
  | some sparkRole => sparkRole == sparkDriverRole || sparkRole == sparkExecutorRole

/-- The pending list with every entry of this initializer filtered out; the
list the loop of removeSelf builds in updated. -/
def pendingWithoutSelf (l : List PodInitializer) : List PodInitializer :=
  l.filter (fun pending => pending.name != initializerName)

/-- getQueueKey builds the namespace/name key of a pod, the two parts joined
by a slash (fmt.Sprintf in the source). -/
def getQueueKey (pod : Pod) : List Char :=
  pod.nameSpace ++ '/' :: pod.name

/-- strings.Split specialized to the one-character separator the source uses:
the list of segments between occurrences of the separator (an empty input
gives one empty segment, as in Go). -/
def splitOnChar (c : Char) : List Char → List (List Char)
  | [] => [[]]
  | x :: xs =>
    let rest := splitOnChar c xs
    if x = c then
      [] :: rest
    else
      match rest with
      | [] => [[x]]
      | h :: t => (x :: h) :: t

/-- The errors the queued reconciliation path can produce or receive. -/
inductive GoError where
  | malformedKey (key : List Char)
  | fetchFailure (msg : String)
  | noContainer (podName : List Char)
  | patchFailure (msg : String)
deriving Repr, DecidableEq

/-- getNamespaceName splits the key on the slash; a key that does not split
into exactly two parts yields empty namespace and name together with the
malformed-key error (the Go function returns all three values). -/
def getNamespaceName (key : List Char) : List Char × List Char × Option GoError :=
  match splitOnChar '/' key with
  | [a, b] => (a, b, none)
  | _ => ([], [], some (.malformedKey key))

/-- The payload of a watch event: the type assertion to a pod pointer either
succeeds with a pod or fails (any other object). -/
inductive WatchObj where
  | podObj (pod : Pod)
  | nonPodObj
deriving Repr, DecidableEq

/-- What onPodAdded does with one event. -/
inductive AddAction where
  | droppedMalformed
  | enqueuedRateLimited (key : List Char)
  | inlineNonSpark (pod : Pod)
  | ignored
deriving Repr, DecidableEq

/-- onPodAdded translated clause by clause: a failed type assertion is logged
and the handler returns; with the sentinel present a Spark pod key goes to
queue.AddRateLimited and any other pod to the synchronous handleNonSparkPod;
without the sentinel nothing happens. -/
def onPodAdded (obj : WatchObj) : AddAction :=
  match obj with
  | .nonPodObj => .droppedMalformed
  | .podObj pod =>
    if isInitializerPresent pod then
      if isSparkPod pod then .enqueuedRateLimited (getQueueKey pod)
      else .inlineNonSpark pod
    else .ignored

/-- Reading through a pod pointer that may be nil: a nil dereference has no
value (the running program panics at that point). -/
def isSparkPodDeref (pod : Option Pod) : Option Bool :=
  match pod with
  | none => none
  | some p => some (isSparkPod p)

/-- What onPodDeleted does with one event. -/
inductive DeleteAction where
  | crashed
  | removedFromQueue (key : List Char)
  | ignored
deriving Repr, DecidableEq

/-- onPodDeleted translated clause by clause: a failed type assertion is only
logged — unlike onPodAdded the source has no early return here — so control
falls through to isSparkPod on the nil pod, whose label read dereferences the
nil pointer; for a Spark pod the key is forgotten and marked done. -/
def onPodDeleted (obj : WatchObj) : DeleteAction :=
  let pod : Option Pod :=
    match obj with
    | .podObj p => some p
    | .nonPodObj => none
  match pod, isSparkPodDeref pod with
  | _, none => .crashed
  | some p, some true => .removedFromQueue (getQueueKey p)
  | _, _ => .ignored

/-- Modelled from the spec: the owner-reference annot key
(config.OwnerReferenceAnnotation, defined in a package outside the analyzed
source). Only its identity matters here. -/
def ownerReferenceAnnotKey : String := "spark-operator.k8s.io/owner-reference"

/-- Modelled from the spec: deserialization of the owner-reference annot
value (the Unmarshal method of the client library type, outside the analyzed
source): a decoder that either fills all four fields or rejects the input.
The concrete format — four fields joined by semicolons — stands in for the
wire format. -/
def ownerRefUnmarshal (s : String) : Option OwnerReference :=
  match (splitOnChar ';' s.toList).map (fun part => String.mk part) with
  | [a, k, n, u] => some { apiVersion := a, kind := k, name := n, uid := u }
  | _ => none

/-- addOwnerReference translated clause by clause: when the annot is present
the owner-reference struct starts as the zero value, Unmarshal fills it on
success, a failure is only logged (the source has no early return), and the
struct is appended unconditionally. -/
def addOwnerReference (pod : Pod) : Pod :=
  match pod.annots.lookup ownerReferenceAnnotKey with
  | none => pod
  | some s =>
    let ownerReference :=
      match ownerRefUnmarshal s with
      | some r => r
      | none => zeroOwnerReference
    { pod with ownerReferences := pod.ownerReferences ++ [ownerReference] }

/-- Modelled from the spec: the primary (Spark) configuration annot key. -/
def sparkConfigMapAnnotKey : String := "spark-operator.k8s.io/spark-config-map"

/-- Modelled from the spec: the secondary (Hadoop) configuration annot key. -/
def hadoopConfigMapAnnotKey : String := "spark-operator.k8s.io/hadoop-config-map"

/-- Modelled from the spec: the fixed Spark configuration directory. -/
def defaultSparkConfDir : String := "/etc/spark/conf"

/-- Modelled from the spec: the fixed Hadoop configuration directory. -/
def defaultHadoopConfDir : String := "/etc/hadoop/conf"

/-- Modelled from the spec: the key family marking generic config maps. -/
def generalConfigMapAnnotHead : String := "config-map.spark-operator.k8s.io/"

/-- Modelled from the spec: the distinguished GCP service account secret
annot key. -/
def gcpServiceAccountSecretAnnotKey : String := "spark-operator.k8s.io/gcp-service-account"

/-- Modelled from the spec: the fixed volume name of the distinguished
credential secret. -/
def serviceAccountSecretVolumeName : String := "gcp-service-account-secret"

/-- Modelled from the spec: the key family marking generic secrets. -/
def generalSecretAnnotHead : String := "secret.spark-operator.k8s.io/"

/-- Append a volume to the pod (the AddVolumeToPod helpers of the external
config and secret packages, modelled from the spec). -/
def addVolume (pod : Pod) (volumeName source : String) : Pod :=
  { pod with volumes := pod.volumes ++ [{ name := volumeName, source := source }] }

/-- Append a volume mount to the first container — the mutation target the
source reaches through the appContainer pointer (the MountToContainer
helpers of the external packages, modelled from the spec). -/
def mountIntoFirstContainer (pod : Pod) (volumeName mountPath : String) : Pod :=
  match pod.containers with
  | [] => pod
  | c :: rest =>
    { pod with containers := { c with volumeMounts := c.volumeMounts ++ [{ name := volumeName, mountPath := mountPath }] } :: rest }

/-- Modelled from the spec: the generic configuration resolver scans the
annots for the recognized key family; each match yields the resource name
(the key with the family marker removed) and its target mount path. -/
def findGeneralConfigMaps (annots : List (String × String)) : List (String × String) :=
  annots.filterMap (fun kv =>
    if generalConfigMapAnnotHead.toList.isPrefixOf kv.1.toList then
      some (String.mk (kv.1.toList.drop generalConfigMapAnnotHead.toList.length), kv.2)
    else none)

/-- Modelled from the spec: the generic credential resolver, same shape as
the generic configuration resolver over its own key family. -/
def findGeneralSecrets (annots : List (String × String)) : List (String × String) :=
  annots.filterMap (fun kv =>
    if generalSecretAnnotHead.toList.isPrefixOf kv.1.toList then
      some (String.mk (kv.1.toList.drop generalSecretAnnotHead.toList.length), kv.2)
    else none)

/-- Modelled from the spec: the distinguished credential resolver returns
the secret name and its fixed mount path when the annot is present. -/
def findGCPServiceAccountSecret (annots : List (String × String)) : Option (String × String) :=
  match annots.lookup gcpServiceAccountSecretAnnotKey with
  | none => none
  | some name => some (name, "/mnt/secrets/" ++ name)

/-- handleConfigMaps translated clause by clause, with the external config
package helpers modelled from the spec: mount the primary and the secondary
configuration resources at their fixed directories when their annots are
present, then one volume and one mount per generic match, the volume named
deterministically from the resource name. -/
def handleConfigMaps (pod : Pod) : Pod :=
  let pod :=
    match pod.annots.lookup sparkConfigMapAnnotKey with
    | none => pod
    | some name =>
      mountIntoFirstContainer (addVolume pod "spark-config-map-volume" name) "spark-config-map-volume" defaultSparkConfDir
  let pod :=
    match pod.annots.lookup hadoopConfigMapAnnotKey with
    | none => pod
    | some name =>
      mountIntoFirstContainer (addVolume pod "hadoop-config-map-volume" name) "hadoop-config-map-volume" defaultHadoopConfDir
  (findGeneralConfigMaps pod.annots).foldl
    (fun acc nm => mountIntoFirstContainer (addVolume acc (nm.1 ++ "-volume") nm.1) (nm.1 ++ "-volume") nm.2)
    pod

/-- handleSecrets translated clause by clause, with the external secret
package helpers modelled from the spec: the distinguished credential secret
first, then one volume and one mount per generic match. -/
def handleSecrets (pod : Pod) : Pod :=
  let pod :=
    match findGCPServiceAccountSecret pod.annots with
    | none => pod
    | some nm =>
      mountIntoFirstContainer (addVolume pod serviceAccountSecretVolumeName nm.1) serviceAccountSecretVolumeName nm.2
  (findGeneralSecrets pod.annots).foldl
    (fun acc nm => mountIntoFirstContainer (addVolume acc (nm.1 ++ "-volume") nm.1) (nm.1 ++ "-volume") nm.2)
    pod

/-- The four mutation steps of syncSparkPod in source order. -/
def mutatePipeline (pod : Pod) : Pod :=
  removeSelf (handleSecrets (handleConfigMaps (addOwnerReference pod)))

/-- The outcome of the pod Get call. -/
inductive FetchResult where
  | notFound
  | fetchErr (msg : String)
  | found (pod : Pod)
deriving Repr, DecidableEq

/-- The outcome of one syncSparkPod run up to the patch submission: success
with nothing to do (the not-found case), an error returned to the worker,
or a patch pair computed from the originally fetched pod and its mutated
deep copy. -/
inductive SyncOutcome where
  | success
  | failure (e : GoError)
  | patched (original modified : Pod)
deriving Repr, DecidableEq

/-- The part of syncSparkPod after the Get call: not-found is success, a
fetch failure is returned, a pod without containers is a validation error,
and otherwise the mutation pipeline runs on a deep copy of the fetched pod
and the patch pair of original and mutated copy is produced. -/
def syncAfterFetch : FetchResult → SyncOutcome
  | .notFound => .success
  | .fetchErr msg => .failure (.fetchFailure msg)
  | .found pod =>
    if pod.containers.length ≤ 0 then .failure (.noContainer pod.name)
    else .patched pod (mutatePipeline pod)

/-- syncSparkPod translated clause by clause over an explicit fetch function
standing for the pod Get call: the parse result of getNamespaceName supplies
namespace and name, while its error component is bound and immediately
overwritten by the fetch error in the source, so it is never consulted. -/
def syncSparkPod (fetch : List Char → List Char → FetchResult) (key : List Char) : SyncOutcome :=
  let parsed := getNamespaceName key
  syncAfterFetch (fetch parsed.1 parsed.2.1)

/-- Queue operations the worker performs on the rate-limited queue. -/
inductive QueueOp where
  | doneOp (key : List Char)
  | forgetOp (key : List Char)
  | addRateLimitedOp (key : List Char)
deriving Repr, DecidableEq

/-- The result of queue.Get: a key, or the shutdown signal. -/
inductive GetResult where
  | shuttingDown
  | item (key : List Char)
deriving Repr, DecidableEq

/-- Recognizer of the Done queue operation. -/
def isDoneOp : QueueOp → Bool
  | .doneOp _ => true
  | _ => false

/-- processNextItem translated clause by clause: on shutdown it returns
false; otherwise it runs the sync handler, calls Forget on success or
AddRateLimited on failure, and the deferred Done runs last in either case.
The queue calls are recorded in execution order. -/
def processNextItem (g : GetResult) (syncHandler : List Char → Option GoError) : Bool × List QueueOp :=
  match g with
  | .shuttingDown => (false, [])
  | .item key =>
    match syncHandler key with
    | none => (true, [.forgetOp key, .doneOp key])
    | some _ => (true, [.addRateLimitedOp key, .doneOp key])

/-- The error the worker sees from one syncSparkPod run; the patch
submission itself (patchPod, an external call) may fail, which the patchRes
parameter decides from the submitted pair. -/
def syncOutcomeErr (patchRes : Pod → Pod → Option GoError) : SyncOutcome → Option GoError
  | .success => none
  | .failure e => some e
  | .patched original modified => patchRes original modified

/-- The sync handler the worker runs: syncSparkPod composed with the error
classification of its outcome. -/
def workerSyncHandler (fetch : List Char → List Char → FetchResult)
    (patchRes : Pod → Pod → Option GoError) (key : List Char) : Option GoError :=
  syncOutcomeErr patchRes (syncSparkPod fetch key)

/-- Overwrite the pod a pointer designates, when it designates one: the
helper for modelling in-place mutation through a pod pointer on an explicit
heap of pod cells addressed by indices. -/
def mutateAt (heap : List Pod) (r : Nat) (f : Pod → Pod) : List Pod :=
  match heap[r]? with
  | none => heap
  | some p => heap.set r (f p)

/-- The mutation phase of syncSparkPod at pointer level: the fetched pod
lives in a cell, DeepCopy allocates a fresh cell holding an equal pod, every
mutation step is applied through the pointer to the copy, and the patch is
computed from the cell of the original and the cell of the copy. -/
def syncMutationPhase (heap : List Pod) (podRef : Nat) : List Pod × Nat :=
  match heap[podRef]? with
  | none => (heap, podRef)
  | some pod =>
    let modRef := heap.length
    let h1 := heap ++ [pod]
    let h2 := mutateAt h1 modRef addOwnerReference
    let h3 := mutateAt h2 modRef handleConfigMaps
    let h4 := mutateAt h3 modRef handleSecrets
    let h5 := mutateAt h4 modRef removeSelf
    (h5, modRef)

/-- The inline path handleNonSparkPod at pointer level: DeepCopy, then
removeSelf through the pointer to the copy; the full update is submitted
from the cell of the copy. -/
def handleNonSparkPodPhase (heap : List Pod) (podRef : Nat) : List Pod × Nat :=
  match heap[podRef]? with
  | none => (heap, podRef)
  | some pod =>
    let modRef := heap.length
    let h1 := heap ++ [pod]
    let h2 := mutateAt h1 modRef removeSelf
    (h2, modRef)

/-- v1alpha1.Rule of the registration record. -/
structure Rule where
  apiGroups : List String
  apiVersions : List String
  resources : List String
deriving Repr, DecidableEq

/-- v1alpha1.Initializer: one entry of the registration record. -/
structure InitializerEntry where
  name : String
  rules : List Rule := []
deriving Repr, DecidableEq

/-- v1alpha1.InitializerConfiguration: the registration record. -/
structure InitializerConfiguration where
  name : String
  initializers : List InitializerEntry
deriving Repr, DecidableEq

/-- The Initializer entry this system registers (sparkPodInitializer in the
source). -/
def sparkPodInitializerEntry : InitializerEntry :=
  { name := initializerName,
    rules := [{ apiGroups := ["*"], apiVersions := ["*"], resources := ["pods"] }] }

/-- The InitializerConfiguration this system creates when none exists. -/
def sparkPodInitializerConfig : InitializerConfiguration :=
  { name := initializerConfigName, initializers := [sparkPodInitializerEntry] }

/-- The result of the Get call on the registration record. -/
inductive RegGetResult where
  | notFound
  | apiErr (msg : String)
  | foundCfg (cfg : InitializerConfiguration)
deriving Repr, DecidableEq

/-- The API call addInitializationConfig makes after the Get, with its
argument: Create of the fresh record, Update of the appended record, no
further call, or the propagated Get error. -/
inductive RegAction where
  | createCall (cfg : InitializerConfiguration)
  | updateCall (cfg : InitializerConfiguration)
  | noCall
  | getFailed (msg : String)
deriving Repr, DecidableEq

/-- addInitializationConfig translated clause by clause: not-found creates
the fresh record; another Get error is propagated; a found record with this
initializer among its entries is left alone; otherwise the entry is appended
and the record updated. -/
def addInitializationConfig (g : RegGetResult) : RegAction :=
  match g with
  | .notFound => .createCall sparkPodInitializerConfig
  | .apiErr msg => .getFailed msg
  | .foundCfg existingConfig =>
    if existingConfig.initializers.any (fun i => i.name == initializerName) then
      .noCall
    else
      .updateCall { existingConfig with initializers := existingConfig.initializers ++ [sparkPodInitializerEntry] }

/-- The registration record after one addInitializationConfig run against a
store holding the record or nothing, assuming the Get faithfully reports the
store and Create and Update install their argument. -/
def regStep (store : Option InitializerConfiguration) : Option InitializerConfiguration × RegAction :=
  let action := addInitializationConfig (match store with | none => .notFound | some cfg => .foundCfg cfg)
  match action with
  | .createCall cfg => (some cfg, action)
  | .updateCall cfg => (some cfg, action)
  | _ => (store, action)

/-- The number of registration entries bearing this system name. -/
def selfEntryCount (cfg : InitializerConfiguration) : Nat :=
  (cfg.initializers.filter (fun i => i.name == initializerName)).length

/-- A concrete pod with one foreign entry on each side of the sentinel. -/
def c1pod : Pod :=
  { nameSpace := ['n', 's'], name := ['p'],
    initializers := some { pending := [{ name := "a" }, { name := initializerName }, { name := "b" }] } }

/-- A concrete Spark driver pod with the sentinel present. -/
def c2driverPod : Pod :=
  { nameSpace := ['n'], name := ['d'],
    labels := [(sparkRoleLabel, sparkDriverRole)],
    initializers := some { pending := [{ name := initializerName }] } }

/-- A concrete non-Spark pod (no labels) with the sentinel present. -/
def c2plainPod : Pod :=
  { nameSpace := ['n'], name := ['u'],
    initializers := some { pending := [{ name := initializerName }] } }

/-- The pod of C3: its owner-reference annot does not deserialize, it has
one pending sentinel and one container. -/
def c3pod : Pod :=
  { nameSpace := ['n'], name := ['w'],
    annots := [(ownerReferenceAnnotKey, "not-a-serialized-owner-reference")],
    initializers := some { pending := [{ name := initializerName }] },
    containers := [{ name := "spark-kubernetes-driver" }] }

/-- The pod refuting the parenthetical of C6: its Initializers field is
present with an empty pending list. -/
def c6pod : Pod :=
  { nameSpace := ['n'], name := ['q'], initializers := some { pending := [] } }

/-- A concrete pod whose pending list holds one foreign entry only. -/
def c6wpod : Pod :=
  { nameSpace := ['n'], name := ['r'], initializers := some { pending := [{ name := "other" }] } }

/-- A concrete pod with zero containers. -/
def c7emptyPod : Pod :=
  { nameSpace := ['n'], name := ['e'],
    initializers := some { pending := [{ name := initializerName }] } }

/-- A concrete pod with one container. -/
def c7fullPod : Pod :=
  { nameSpace := ['n'], name := ['f'],
    initializers := some { pending := [{ name := initializerName }] },
    containers := [{ name := "spark-kubernetes-driver" }] }

/-- A registration record of a foreign initializer only. -/
def c8cfgOther : InitializerConfiguration :=
  { name := initializerConfigName, initializers := [{ name := "other.initializer.example.com" }] }

/-- A concrete well-formed queue key. -/
def keyAB : List Char := ['a', '/', 'b']

/-- A concrete malformed queue key (no slash at all). -/
def keyNoSlash : List Char := ['x']

/-- A filter keeping every element satisfying p keeps the whole list when the
length does not drop. -/
theorem filter_eq_self_of_length_eq {α : Type} (p : α → Bool) (l : List α)
    (h : (l.filter p).length = l.length) : l.filter p = l := by
  have h2 : ∀ a ∈ l, p a := by simpa using h
  exact List.filter_eq_self.mpr h2

/-- removeSelf is the identity on a pod with a nil Initializers field. -/
theorem removeSelf_none (pod : Pod) (h : pod.initializers = none) :
    removeSelf pod = pod := by
  simp [removeSelf, h]

/-- Characterization of removeSelf on a pod with a present Initializers
field: the pending list is filtered, and an empty filtered list clears the
whole field. -/
theorem removeSelf_char (pod : Pod) (inits : PodInitializers)
    (h : pod.initializers = some inits) :
    removeSelf pod =
      { pod with initializers :=
          (if pendingWithoutSelf inits.pending = []
           then none
           else some { inits with pending := pendingWithoutSelf inits.pending }) } := by
  simp only [removeSelf, h, pendingWithoutSelf]
  by_cases hnil :
      inits.pending.filter (fun pending => pending.name != initializerName) = []
  · simp [hnil]
  · have hpos :
        0 < (inits.pending.filter (fun pending => pending.name != initializerName)).length :=
      List.length_pos.mpr hnil
    rw [if_neg hnil]
    by_cases hlen :
        (inits.pending.filter (fun pending => pending.name != initializerName)).length
          = inits.pending.length
    · have heq := filter_eq_self_of_length_eq
        (fun pending => pending.name != initializerName) inits.pending hlen
      rw [if_pos]
      · rw [heq]
        cases pod with
        | mk ns nm lb an ini orefs cs vs =>
          cases inits with
          | mk pending result =>
            simp only at h
            rw [h]
      · simp only [Bool.and_eq_true, decide_eq_true_eq, beq_iff_eq]
        exact ⟨hpos, hlen⟩
    · rw [if_neg, if_neg]
      · intro hcon
        simp only [beq_iff_eq, List.length_eq_zero] at hcon
        exact hnil hcon
      · simp only [Bool.and_eq_true, decide_eq_true_eq, beq_iff_eq]
        intro hcon
        exact hlen hcon.2

/-- A pod whose pending list is non-empty and free of this initializer is a
fixed point of removeSelf. -/
theorem removeSelf_fixed (pod : Pod) (inits : PodInitializers)
    (h : pod.initializers = some inits)
    (hne : inits.pending ≠ [])
    (hall : ∀ x ∈ inits.pending, x.name ≠ initializerName) :
    removeSelf pod = pod := by
  have hfilter : pendingWithoutSelf inits.pending = inits.pending :=
    List.filter_eq_self.mpr (by intro a ha; simpa using hall a ha)
  rw [removeSelf_char pod inits h, hfilter]
  rw [if_neg hne]
  cases pod with
  | mk ns nm lb an ini orefs cs vs =>
    cases inits
    simp_all

/-- After removeSelf runs, the sentinel is absent. -/
theorem isInitializerPresent_removeSelf (pod : Pod) :
    isInitializerPresent (removeSelf pod) = false := by
  match h : pod.initializers with
  | none =>
    rw [removeSelf_none pod h]
    simp [isInitializerPresent, h]
  | some inits =>
    rw [removeSelf_char pod inits h]
    by_cases hnil : pendingWithoutSelf inits.pending = []
    · simp [hnil, isInitializerPresent]
    · rw [if_neg hnil]
      simp only [isInitializerPresent]
      rw [List.any_eq_false]
      intro x hx
      have := (List.mem_filter.mp hx).2
      simpa using this

/-- removeSelf is idempotent. -/
theorem removeSelf_removeSelf (pod : Pod) :
    removeSelf (removeSelf pod) = removeSelf pod := by
  match h : pod.initializers with
  | none =>
    rw [removeSelf_none pod h]
    exact removeSelf_none pod h
  | some inits =>
    rw [removeSelf_char pod inits h]
    by_cases hnil : pendingWithoutSelf inits.pending = []
    · rw [if_pos hnil]
      exact removeSelf_none _ rfl
    · rw [if_neg hnil]
      refine removeSelf_fixed _
        { inits with pending := pendingWithoutSelf inits.pending } rfl hnil ?_
      intro x hx
      have := (List.mem_filter.mp hx).2
      simpa using this

/-- pendingWithoutSelf keeps exactly the entries whose name differs from the
initializer name, as a sublist (hence in their original relative order). -/
theorem pendingWithoutSelf_spec (l : List PodInitializer) :
    (pendingWithoutSelf l).Sublist l ∧
    ∀ x, x ∈ pendingWithoutSelf l ↔ x ∈ l ∧ x.name ≠ initializerName := by
  constructor
  · exact List.filter_sublist l
  · intro x
    simp [pendingWithoutSelf, List.mem_filter]

/-- C1: for every pod whose pending-initializer list is present, removeSelf
removes exactly the entries named pod-initializer.spark-operator.k8s.io from
the pending list (a filter of the list, so all other entries are kept in
their relative order), and when the filtered list is empty the Initializers
field itself becomes nil rather than an empty list; a pod with a nil
Initializers field is returned unchanged. -/
theorem claim1_removeSelf_exact (pod : Pod) :
    (pod.initializers = none → removeSelf pod = pod) ∧
    (∀ inits, pod.initializers = some inits →
      removeSelf pod =
        { pod with initializers :=
            (if pendingWithoutSelf inits.pending = []
             then none
             else some { inits with pending := pendingWithoutSelf inits.pending }) } ∧
      (pendingWithoutSelf inits.pending).Sublist inits.pending ∧
      (∀ x, x ∈ pendingWithoutSelf inits.pending ↔
        x ∈ inits.pending ∧ x.name ≠ initializerName)) :=
  ⟨removeSelf_none pod,
   fun inits h =>
     ⟨removeSelf_char pod inits h,
      (pendingWithoutSelf_spec inits.pending).1,
      (pendingWithoutSelf_spec inits.pending).2⟩⟩

/-- Witness for C1 at a concrete pod: the sentinel entry disappears and the
two foreign entries survive in order. -/
theorem claim1_removeSelf_exact_witness :
    removeSelf c1pod =
      { c1pod with initializers :=
          (if pendingWithoutSelf [{ name := "a" }, { name := initializerName }, { name := "b" }] = []
           then none
           else some { pending := pendingWithoutSelf [{ name := "a" }, { name := initializerName }, { name := "b" }], result := none }) } :=
  ((claim1_removeSelf_exact c1pod).2
    { pending := [{ name := "a" }, { name := initializerName }, { name := "b" }] } rfl).1

/-- C6 counterexample: the sentinel is absent from c6pod (its pending list is
empty), yet removeSelf is not a no-op on it: the present-but-empty pending
list is cleared to a nil Initializers field. -/
theorem claim6_counterexample :
    isInitializerPresent c6pod = false ∧ removeSelf c6pod ≠ c6pod := by
  constructor
  · rfl
  · decide

/-- C6 (amended): removeSelf is idempotent (applying it twice yields the same
pod as applying it once), after one application the sentinel is absent, and
removeSelf is a no-op on any pod whose Initializers field is nil or whose
pending list is non-empty and contains no entry with this initializer name. -/
theorem claim6_removeSelf_idempotent (pod : Pod) :
    removeSelf (removeSelf pod) = removeSelf pod ∧
    isInitializerPresent (removeSelf pod) = false ∧
    (pod.initializers = none → removeSelf pod = pod) ∧
    (∀ inits, pod.initializers = some inits → inits.pending ≠ [] →
      (∀ x ∈ inits.pending, x.name ≠ initializerName) → removeSelf pod = pod) :=
  ⟨removeSelf_removeSelf pod, isInitializerPresent_removeSelf pod,
   removeSelf_none pod, fun inits h hne hall => removeSelf_fixed pod inits h hne hall⟩

/-- Witness for C6 at concrete pods: idempotence at c6wpod and the no-op case
discharged at the same pod. -/
theorem claim6_removeSelf_idempotent_witness :
    removeSelf (removeSelf c6wpod) = removeSelf c6wpod ∧ removeSelf c6wpod = c6wpod :=
  ⟨(claim6_removeSelf_idempotent c6wpod).1,
   (claim6_removeSelf_idempotent c6wpod).2.2.2 { pending := [{ name := "other" }] }
     rfl (by decide) (by decide)⟩

/-- splitOnChar of a list free of the separator is the single segment. -/
theorem splitOnChar_no_sep (c : Char) (l : List Char) (h : c ∉ l) :
    splitOnChar c l = [l] := by
  induction l with
  | nil => rfl
  | cons x xs ih =>
    have hx : x ≠ c := fun hc => h (hc ▸ List.mem_cons_self x xs)
    have hxs : c ∉ xs := fun hc => h (List.mem_cons_of_mem x hc)
    simp [splitOnChar, hx, ih hxs]

/-- splitOnChar splits at the first separator when the part before it is
free of the separator. -/
theorem splitOnChar_append (c : Char) (l1 l2 : List Char) (h : c ∉ l1) :
    splitOnChar c (l1 ++ c :: l2) = l1 :: splitOnChar c l2 := by
  induction l1 with
  | nil => simp [splitOnChar]
  | cons x xs ih =>
    have hx : x ≠ c := fun hc => h (hc ▸ List.mem_cons_self x xs)
    have hxs : c ∉ xs := fun hc => h (List.mem_cons_of_mem x hc)
    simp [splitOnChar, hx, ih hxs]

/-- Parsing the key built from a slash-free namespace and name recovers both
exactly, with no error. -/
theorem getNamespaceName_getQueueKey (pod : Pod)
    (h1 : '/' ∉ pod.nameSpace) (h2 : '/' ∉ pod.name) :
    getNamespaceName (getQueueKey pod) = (pod.nameSpace, pod.name, none) := by
  simp [getNamespaceName, getQueueKey, splitOnChar_append '/' _ _ h1,
    splitOnChar_no_sep '/' _ h2]

/-- A key that does not split into exactly two parts yields empty namespace
and name plus the malformed-key error. -/
theorem getNamespaceName_malformed (key : List Char)
    (h : (splitOnChar '/' key).length ≠ 2) :
    getNamespaceName key = ([], [], some (.malformedKey key)) := by
  rcases hs : splitOnChar '/' key with _ | ⟨a, _ | ⟨b, _ | ⟨d, t⟩⟩⟩
  · simp [getNamespaceName, hs]
  · simp [getNamespaceName, hs]
  · rw [hs] at h
    simp at h
  · simp [getNamespaceName, hs]

/-- C10: a malformed queue key produces the malformed-key error inside
getNamespaceName, but syncSparkPod discards it — the source immediately
overwrites the error variable with the fetch error — and proceeds to fetch
with empty namespace and name; conversely the key built by getQueueKey
parses back to exactly the namespace and the name with no error whenever
neither contains a slash. -/
theorem claim10_key_handling (fetch : List Char → List Char → FetchResult)
    (key : List Char) (pod : Pod) :
    ((splitOnChar '/' key).length ≠ 2 →
      getNamespaceName key = ([], [], some (.malformedKey key)) ∧
      syncSparkPod fetch key = syncAfterFetch (fetch [] [])) ∧
    ('/' ∉ pod.nameSpace → '/' ∉ pod.name →
      getNamespaceName (getQueueKey pod) = (pod.nameSpace, pod.name, none)) := by
  constructor
  · intro h
    have hm := getNamespaceName_malformed key h
    exact ⟨hm, by simp [syncSparkPod, hm]⟩
  · intro h1 h2
    exact getNamespaceName_getQueueKey pod h1 h2

/-- Witness for C10: the one-character slash-free key is malformed and is
fetched with empty coordinates; the roundtrip at a concrete pod. -/
theorem claim10_key_handling_witness :
    (getNamespaceName keyNoSlash = ([], [], some (.malformedKey keyNoSlash)) ∧
     syncSparkPod (fun (_n _m : List Char) => FetchResult.notFound) keyNoSlash
       = syncAfterFetch FetchResult.notFound) ∧
    getNamespaceName (getQueueKey c1pod) = (c1pod.nameSpace, c1pod.name, none) :=
  ⟨(claim10_key_handling (fun (_n _m : List Char) => FetchResult.notFound) keyNoSlash c1pod).1
     (by decide),
   (claim10_key_handling (fun (_n _m : List Char) => FetchResult.notFound) keyNoSlash c1pod).2
     (by decide) (by decide)⟩

/-- C2: for every add event carrying a pod: with the sentinel present and
the spark-role label equal to driver or executor, the namespace/name key
goes to the rate-limited enqueue; with the sentinel present and the role
label absent or unrecognized, the inline handleNonSparkPod path runs and
nothing is enqueued; without the sentinel the event is ignored entirely. -/
theorem claim2_onPodAdded_routing (pod : Pod) :
    (isInitializerPresent pod = true →
      (pod.labels.lookup sparkRoleLabel = some sparkDriverRole ∨
       pod.labels.lookup sparkRoleLabel = some sparkExecutorRole) →
      onPodAdded (.podObj pod) = .enqueuedRateLimited (getQueueKey pod)) ∧
    (isInitializerPresent pod = true →
      (∀ role, pod.labels.lookup sparkRoleLabel = some role →
        role ≠ sparkDriverRole ∧ role ≠ sparkExecutorRole) →
      onPodAdded (.podObj pod) = .inlineNonSpark pod) ∧
    (isInitializerPresent pod = false → onPodAdded (.podObj pod) = .ignored) := by
  refine ⟨?_, ?_, ?_⟩
  · intro hp hrole
    have hs : isSparkPod pod = true := by
      cases hrole with
      | inl h => simp [isSparkPod, h]
      | inr h => simp [isSparkPod, h]
    simp [onPodAdded, hp, hs]
  · intro hp hrole
    have hs : isSparkPod pod = false := by
      simp only [isSparkPod]
      cases hl : pod.labels.lookup sparkRoleLabel with
      | none => rfl
      | some role =>
        have hr := hrole role hl
        simp [hr.1, hr.2]
    simp [onPodAdded, hp, hs]
  · intro hp
    simp [onPodAdded, hp]

/-- Witness for C2 at concrete pods: the driver pod is enqueued rate-limited
and the unlabeled pod goes to the inline path. -/
theorem claim2_onPodAdded_routing_witness :
    onPodAdded (.podObj c2driverPod) = .enqueuedRateLimited (getQueueKey c2driverPod) ∧
    onPodAdded (.podObj c2plainPod) = .inlineNonSpark c2plainPod :=
  ⟨(claim2_onPodAdded_routing c2driverPod).1 (by decide) (Or.inl (by decide)),
   (claim2_onPodAdded_routing c2plainPod).2.1 (by decide) (fun role h => nomatch h)⟩

/-- C4, evaluated at the failing input: a non-pod payload makes onPodAdded
log and drop the event, but onPodDeleted — whose failed type assertion lacks
the early return — falls through to the label read on the nil pod and
crashes, refuting the part of the claim that says it never dereferences the
nil pod. -/
theorem claim4_malformed_payload :
    onPodAdded .nonPodObj = .droppedMalformed ∧
    onPodDeleted .nonPodObj = .crashed ∧
    isSparkPodDeref none = none :=
  ⟨rfl, rfl, rfl⟩

/-- C5: in the queued path, a not-found fetch makes syncSparkPod succeed and
the worker then Forget the key; any error from the sync handler makes the
worker AddRateLimited the key; and every processed item sees exactly one
Done, which runs last (the deferred call). -/
theorem claim5_worker_loop (fetch : List Char → List Char → FetchResult)
    (patchRes : Pod → Pod → Option GoError) (key : List Char) :
    (fetch (getNamespaceName key).1 (getNamespaceName key).2.1 = .notFound →
      workerSyncHandler fetch patchRes key = none ∧
      processNextItem (.item key) (workerSyncHandler fetch patchRes)
        = (true, [.forgetOp key, .doneOp key])) ∧
    (∀ e, workerSyncHandler fetch patchRes key = some e →
      processNextItem (.item key) (workerSyncHandler fetch patchRes)
        = (true, [.addRateLimitedOp key, .doneOp key])) ∧
    (((processNextItem (.item key) (workerSyncHandler fetch patchRes)).2.filter isDoneOp).length
        = 1 ∧
     ∃ ops, (processNextItem (.item key) (workerSyncHandler fetch patchRes)).2
        = ops ++ [.doneOp key]) := by
  refine ⟨?_, ?_, ?_⟩
  · intro hf
    have hnone : workerSyncHandler fetch patchRes key = none := by
      simp [workerSyncHandler, syncSparkPod, hf, syncAfterFetch, syncOutcomeErr]
    exact ⟨hnone, by simp [processNextItem, hnone]⟩
  · intro e he
    simp [processNextItem, he]
  · cases hw : workerSyncHandler fetch patchRes key with
    | none =>
      refine ⟨by simp [processNextItem, hw, isDoneOp], ⟨[.forgetOp key], ?_⟩⟩
      simp [processNextItem, hw]
    | some e =>
      refine ⟨by simp [processNextItem, hw, isDoneOp], ⟨[.addRateLimitedOp key], ?_⟩⟩
      simp [processNextItem, hw]

/-- Witness for C5 at a concrete key: the not-found run forgets and the
failing run re-enqueues rate-limited, each followed by the single Done. -/
theorem claim5_worker_loop_witness :
    processNextItem (.item keyAB)
        (workerSyncHandler (fun (_n _m : List Char) => FetchResult.notFound)
          (fun (_o _d : Pod) => none))
      = (true, [.forgetOp keyAB, .doneOp keyAB]) ∧
    processNextItem (.item keyAB)
        (workerSyncHandler (fun (_n _m : List Char) => FetchResult.fetchErr "boom")
          (fun (_o _d : Pod) => none))
      = (true, [.addRateLimitedOp keyAB, .doneOp keyAB]) :=
  ⟨((claim5_worker_loop (fun (_n _m : List Char) => FetchResult.notFound)
      (fun (_o _d : Pod) => none) keyAB).1 rfl).2,
   (claim5_worker_loop (fun (_n _m : List Char) => FetchResult.fetchErr "boom")
      (fun (_o _d : Pod) => none) keyAB).2.1 (.fetchFailure "boom") rfl⟩

/-- C7: a fetched pod with an empty container list makes syncSparkPod return
the validation error, producing no patch pair (so no mutation step output is
submitted), and a non-empty container list puts the first-container access
in bounds and lets the pipeline run to the patch pair. -/
theorem claim7_zero_containers (fetch : List Char → List Char → FetchResult)
    (key : List Char) (pod : Pod)
    (hf : fetch (getNamespaceName key).1 (getNamespaceName key).2.1 = .found pod) :
    (pod.containers = [] →
      syncSparkPod fetch key = .failure (.noContainer pod.name) ∧
      ∀ original modified, syncSparkPod fetch key ≠ .patched original modified) ∧
    (pod.containers ≠ [] →
      (pod.containers.get? 0).isSome = true ∧
      syncSparkPod fetch key = .patched pod (mutatePipeline pod)) := by
  constructor
  · intro hc
    have hfail : syncSparkPod fetch key = .failure (.noContainer pod.name) := by
      simp [syncSparkPod, hf, syncAfterFetch, hc]
    exact ⟨hfail, fun original modified => by simp [hfail]⟩
  · intro hc
    constructor
    · cases hcs : pod.containers with
      | nil => exact absurd hcs hc
      | cons a t => simp [hcs]
    · have hlen : ¬pod.containers.length ≤ 0 := by
        cases hcs : pod.containers with
        | nil => exact absurd hcs hc
        | cons a t => simp [hcs]
      simp [syncSparkPod, hf, syncAfterFetch, hlen]

/-- Witness for C7 at concrete pods: the zero-container pod yields the
validation error and the one-container pod reaches the patch pair. -/
theorem claim7_zero_containers_witness :
    syncSparkPod (fun (_n _m : List Char) => FetchResult.found c7emptyPod) keyAB
      = .failure (.noContainer c7emptyPod.name) ∧
    syncSparkPod (fun (_n _m : List Char) => FetchResult.found c7fullPod) keyAB
      = .patched c7fullPod (mutatePipeline c7fullPod) :=
  ⟨((claim7_zero_containers (fun (_n _m : List Char) => FetchResult.found c7emptyPod)
      keyAB c7emptyPod rfl).1 rfl).1,
   ((claim7_zero_containers (fun (_n _m : List Char) => FetchResult.found c7fullPod)
      keyAB c7fullPod rfl).2 (by decide)).2⟩

/-- C3, evaluated at the failing input: the owner-reference annot of c3pod
is rejected by the deserializer, yet addOwnerReference grows the
owner-reference list by one (the zero-value entry) — the log-and-skip the
claim describes is missing its early return — while the remaining mutation
steps still run: the full pipeline still removes the sentinel. -/
theorem claim3_owner_reference_appended :
    ownerRefUnmarshal "not-a-serialized-owner-reference" = none ∧
    c3pod.ownerReferences = [] ∧
    (addOwnerReference c3pod).ownerReferences = [zeroOwnerReference] ∧
    (mutatePipeline c3pod).initializers = none ∧
    (mutatePipeline c3pod).ownerReferences = [zeroOwnerReference] := by
  refine ⟨by decide, rfl, by decide, ?_, ?_⟩ <;> decide

/-- mutateAt on a cell that designates a pod rewrites exactly that cell. -/
theorem mutateAt_get_same (heap : List Pod) (r : Nat) (f : Pod → Pod) (p : Pod)
    (h : heap[r]? = some p) : (mutateAt heap r f)[r]? = some (f p) := by
  have hlt : r < heap.length := (List.getElem?_eq_some.mp h).1
  simp only [mutateAt, h]
  exact List.getElem?_set_eq_of_lt (f p) hlt

/-- mutateAt leaves every other cell untouched. -/
theorem mutateAt_get_other (heap : List Pod) (r s : Nat) (f : Pod → Pod)
    (hne : r ≠ s) : (mutateAt heap r f)[s]? = heap[s]? := by
  cases h : heap[r]? with
  | none => simp [mutateAt, h]
  | some p =>
    simp only [mutateAt, h]
    exact List.getElem?_set_ne hne

/-- C9: both reconciliation paths mutate only the freshly allocated deep
copy: after the mutation phase of the queued path the cell of the originally
fetched pod still holds exactly the fetched pod (so the patch base is
unchanged by the mutation) while the copy cell holds the pipeline result;
likewise the inline path leaves the cell of the received pod unchanged and
submits the update from the copy cell, which holds removeSelf of the pod. -/
theorem claim9_deep_copy_frame (heap : List Pod) (podRef : Nat) (pod : Pod)
    (h : heap[podRef]? = some pod) :
    ((syncMutationPhase heap podRef).1[podRef]? = some pod ∧
     (syncMutationPhase heap podRef).1[(syncMutationPhase heap podRef).2]?
       = some (mutatePipeline pod)) ∧
    ((handleNonSparkPodPhase heap podRef).1[podRef]? = some pod ∧
     (handleNonSparkPodPhase heap podRef).1[(handleNonSparkPodPhase heap podRef).2]?
       = some (removeSelf pod)) := by
  have hlt : podRef < heap.length := (List.getElem?_eq_some.mp h).1
  have hne : heap.length ≠ podRef := Nat.ne_of_gt hlt
  have h0 : (heap ++ [pod])[podRef]? = some pod := by
    rw [List.getElem?_append_left hlt]
    exact h
  have s1 : (heap ++ [pod])[heap.length]? = some pod :=
    List.getElem?_concat_length heap pod
  have esync : syncMutationPhase heap podRef
      = (mutateAt (mutateAt (mutateAt (mutateAt (heap ++ [pod]) heap.length addOwnerReference)
          heap.length handleConfigMaps) heap.length handleSecrets) heap.length removeSelf,
         heap.length) := by
    simp [syncMutationPhase, h]
  have einline : handleNonSparkPodPhase heap podRef
      = (mutateAt (heap ++ [pod]) heap.length removeSelf, heap.length) := by
    simp [handleNonSparkPodPhase, h]
  constructor
  · rw [esync]
    constructor
    · rw [mutateAt_get_other _ _ _ _ hne, mutateAt_get_other _ _ _ _ hne,
        mutateAt_get_other _ _ _ _ hne, mutateAt_get_other _ _ _ _ hne]
      exact h0
    · have s2 := mutateAt_get_same _ _ addOwnerReference _ s1
      have s3 := mutateAt_get_same _ _ handleConfigMaps _ s2
      have s4 := mutateAt_get_same _ _ handleSecrets _ s3
      have s5 := mutateAt_get_same _ _ removeSelf _ s4
      rw [s5]
      rfl
  · rw [einline]
    constructor
    · rw [mutateAt_get_other _ _ _ _ hne]
      exact h0
    · exact mutateAt_get_same _ _ removeSelf _ s1

/-- Witness for C9 on a one-cell heap holding a concrete pod. -/
theorem claim9_deep_copy_frame_witness :
    ((syncMutationPhase [c7fullPod] 0).1[0]? = some c7fullPod ∧
     (syncMutationPhase [c7fullPod] 0).1[(syncMutationPhase [c7fullPod] 0).2]?
       = some (mutatePipeline c7fullPod)) ∧
    ((handleNonSparkPodPhase [c7fullPod] 0).1[0]? = some c7fullPod ∧
     (handleNonSparkPodPhase [c7fullPod] 0).1[(handleNonSparkPodPhase [c7fullPod] 0).2]?
       = some (removeSelf c7fullPod)) :=
  claim9_deep_copy_frame [c7fullPod] 0 c7fullPod rfl

/-- C8: the registration converges to exactly one entry bearing this system
name: an absent record is created with exactly one such entry; a record
already carrying the entry triggers no further call; a record without it
gets exactly one entry appended by the update call; and running the step
twice from the absent state performs create then no call, ending with
exactly one entry. -/
theorem claim8_registration_convergence :
    (addInitializationConfig .notFound = .createCall sparkPodInitializerConfig ∧
     selfEntryCount sparkPodInitializerConfig = 1) ∧
    (∀ cfg, cfg.initializers.any (fun i => i.name == initializerName) = true →
      addInitializationConfig (.foundCfg cfg) = .noCall) ∧
    (∀ cfg, cfg.initializers.any (fun i => i.name == initializerName) = false →
      addInitializationConfig (.foundCfg cfg)
        = .updateCall { cfg with initializers := cfg.initializers ++ [sparkPodInitializerEntry] } ∧
      selfEntryCount { cfg with initializers := cfg.initializers ++ [sparkPodInitializerEntry] }
        = 1) ∧
    ((regStep (regStep none).1).2 = .noCall ∧
     (regStep (regStep none).1).1 = some sparkPodInitializerConfig ∧
     selfEntryCount sparkPodInitializerConfig = 1) := by
  refine ⟨⟨rfl, by decide⟩, ?_, ?_, ?_⟩
  · intro cfg hany
    simp [addInitializationConfig, hany]
  · intro cfg hany
    refine ⟨by simp [addInitializationConfig, hany], ?_⟩
    have hfil : cfg.initializers.filter (fun i => i.name == initializerName) = [] := by
      rw [List.filter_eq_nil_iff]
      intro a ha
      have := List.any_eq_false.mp hany a ha
      simpa using this
    simp [selfEntryCount, List.filter_append, hfil, sparkPodInitializerEntry]
  · exact ⟨by decide, by decide, by decide⟩

/-- Witness for C8 at concrete records: the record already holding the entry
triggers no call and the foreign-only record gets the appended update. -/
theorem claim8_registration_convergence_witness :
    addInitializationConfig (.foundCfg sparkPodInitializerConfig) = .noCall ∧
    addInitializationConfig (.foundCfg c8cfgOther)
      = .updateCall { c8cfgOther with initializers := c8cfgOther.initializers ++ [sparkPodInitializerEntry] } :=
  ⟨claim8_registration_convergence.2.1 sparkPodInitializerConfig (by decide),
   (claim8_registration_convergence.2.2.1 c8cfgOther (by decide)).1⟩

end SparkOperator
